import Mathlib

/-!
Shallow embedding of the Stablecoin Treasury OS dashboard.

The repository contains two variants of the same single-page treasury
simulation:
* `src/unnamed/part_000` — the richer variant (`executeSweep` with a
  `Guided`/`Quick` path argument, `BALANCE_UPDATED` audit events);
  embedded in namespace `Treasury`.
* `src/app/page.tsx` — the other variant (`handleSimulateSweep`, no path
  argument, no balance-update event in its event union); embedded in
  namespace `PageTsx`.

JavaScript numbers are modelled as exact rationals (`ℚ`).  `NaN` is
modelled as `none : Option ℚ` at the points where the source checks for
it (`clampNumber`'s `Number.isNaN` guard, `Number(...)` parses).  A
digits-and-dots string whose exact value reaches `2 ^ 1024` evaluates to
`Infinity` in JavaScript, so `jsNumber` returns `none` there, matching
the `Number.isFinite` check in `parseCurrencyInput`; float rounding of
in-range values is abstracted to exact rational arithmetic.
-/

namespace Treasury

/-- `Number.MAX_SAFE_INTEGER`, the default upper bound of `clampNumber`. -/
def MAX_SAFE_INTEGER : ℚ := 2 ^ 53 - 1

/-- Exact values at or beyond this bound round to `Infinity` in a JS
`Number`, hence fail `Number.isFinite`. -/
def MAX_DOUBLE_BOUND : ℚ := 2 ^ 1024

/-- `clampNumber(n, min = 0, max = Number.MAX_SAFE_INTEGER)` from the
source: `NaN` (modelled as `none`) yields `min`, otherwise
`Math.min(Math.max(n, min), max)`. -/
def clampNumber (n : Option ℚ) (lo hi : ℚ) : ℚ :=
  match n with
  | none => lo
  | some q => min (max q lo) hi

/-- The character class `[\d.]` kept by `parseCurrencyInput`'s
`value.replace(/[^\d.]/g, "")`. -/
def isDigitChar (c : Char) : Bool := '0' ≤ c && c ≤ '9'

/-- `value.replace(/[^\d.]/g, "")`: keep only digits and dots. -/
def cleanCurrency (s : String) : List Char :=
  s.data.filter (fun c => isDigitChar c || c == '.')

/-- Decimal value of a digit string. -/
def digitsToNat (l : List Char) : ℕ :=
  l.foldl (fun acc c => 10 * acc + (c.toNat - '0'.toNat)) 0

/-- Value of a fractional digit string ("25" ↦ 0.25). -/
def fracValue (l : List Char) : ℚ :=
  (digitsToNat l : ℚ) / 10 ^ l.length

/-- Decimal value of a digits-and-dots string with at most one dot. -/
def intFracValue (l : List Char) : ℚ :=
  (digitsToNat (l.takeWhile (fun c => c ≠ '.')) : ℚ) +
    fracValue ((l.dropWhile (fun c => c ≠ '.')).drop 1)

/-- `Number(cleaned)` for a string of digits and dots, as produced by
`cleanCurrency`.  `none` models a non-finite result: `NaN` for two or
more dots or a dot with no digit, `Infinity` for exact values reaching
`MAX_DOUBLE_BOUND`.  The empty string parses to `0`. -/
def jsNumber (l : List Char) : Option ℚ :=
  if l = [] then some 0
  else if 2 ≤ l.count '.' then none
  else if ¬ l.any isDigitChar then none
  else if intFracValue l < MAX_DOUBLE_BOUND then some (intFracValue l) else none

/-- `parseCurrencyInput` from the source: strip non-numeric characters
except the decimal point, `Number(...)` the rest, and return `0` unless
the result is finite. -/
def parseCurrencyInput (s : String) : ℚ :=
  (jsNumber (cleanCurrency s)).getD 0

/-- `Math.round`: round half toward positive infinity. -/
def jsRound (q : ℚ) : ℤ := ⌊q + 1 / 2⌋

inductive WalletKey
  | Operating
  | Yield
  | Payment
deriving DecidableEq

inductive ConnectionMode
  | NotConnected
  | DemoBankFeed
  | Wallet
deriving DecidableEq

inductive SweepPath
  | Guided
  | Quick
deriving DecidableEq

/-- The `TreasuryEvent` tagged union of `src/unnamed/part_000`. -/
inductive TreasuryEvent
  | CONNECTED (ts : ℤ) (mode : ConnectionMode)
  | POLICY_UPDATED (ts : ℤ) (operatingTarget bankApyPct onchainApyPct : ℚ) (note : String)
  | BALANCE_UPDATED (ts : ℤ) (account : WalletKey) (value : ℚ)
  | SWEEP_EXECUTED (ts : ℤ) (amount : ℚ) (path : SweepPath)
deriving DecidableEq

structure Balances where
  Operating : ℚ
  Yield : ℚ
  Payment : ℚ
deriving DecidableEq

/-- `lastSweep` record of `part_000`. -/
structure LastSweep where
  sweptAmount : ℚ
  timestamp : ℤ
  path : SweepPath
deriving DecidableEq

/-- The React state of the `part_000` dashboard component. -/
structure DashState where
  balances : Balances
  operatingTarget : ℚ
  bankApyPct : ℚ
  onchainApyPct : ℚ
  months : ℚ
  step : ℕ
  connectionMode : ConnectionMode
  requiresApproval : Bool
  approved : Bool
  events : List TreasuryEvent
  lastSweep : Option LastSweep
deriving DecidableEq

/-- The `useState` defaults of `part_000`. -/
def initialState : DashState where
  balances := { Operating := 50000, Yield := 250000, Payment := 20000 }
  operatingTarget := 50000
  bankApyPct := 1 / 5
  onchainApyPct := 5
  months := 6
  step := 1
  connectionMode := .NotConnected
  requiresApproval := true
  approved := false
  events := []
  lastSweep := none

def getBal (b : Balances) : WalletKey → ℚ
  | .Operating => b.Operating
  | .Yield => b.Yield
  | .Payment => b.Payment

def setBal (b : Balances) : WalletKey → ℚ → Balances
  | .Operating, v => { b with Operating := v }
  | .Yield, v => { b with Yield := v }
  | .Payment, v => { b with Payment := v }

/-- `totalCash`: sum of the three balances. -/
def totalCash (s : DashState) : ℚ :=
  s.balances.Operating + s.balances.Yield + s.balances.Payment

/-- `excessOperating = Math.max(0, balances.Operating - operatingTarget)`. -/
def excessOperating (s : DashState) : ℚ :=
  max 0 (s.balances.Operating - s.operatingTarget)

/-- The two rationale templates of the recommendation; the source builds
strings, keyed on `sweepAmount > 0`, the "exceeds target" one
interpolating the amount. -/
inductive Rationale
  | exceedsTarget (amount : ℚ)
  | noSweep
deriving DecidableEq

structure Recommendation where
  sweepAmount : ℚ
  rationale : Rationale
deriving DecidableEq

/-- The `recommendation` memo: `sweepAmount = excessOperating`, rationale
keyed on `sweepAmount > 0`. -/
def recommendation (s : DashState) : Recommendation :=
  let sweepAmount := excessOperating s
  { sweepAmount := sweepAmount
    rationale := if 0 < sweepAmount then .exceedsTarget sweepAmount else .noSweep }

/-- `onchainMonthlyRate = (clampNumber(onchainApyPct, 0, 100) / 100) / 12`. -/
def onchainMonthlyRate (p : ℚ) : ℚ := clampNumber (some p) 0 100 / 100 / 12

/-- `bankMonthlyRate = (clampNumber(bankApyPct, 0, 100) / 100) / 12`. -/
def bankMonthlyRate (p : ℚ) : ℚ := clampNumber (some p) 0 100 / 100 / 12

/-- The `yieldSimulation` memo: one chart point per month index
`1..m` with non-compounding cumulative yield, rounded per point.
`Array.from({length: m})` truncates a fractional length toward zero
(`ToLength`), modelled by `Rat.floor`/`toNat` on the clamped month
count.  Points are `(onchain, bank)` pairs. -/
def yieldSimulation (s : DashState) : List (ℤ × ℤ) :=
  let m : ℕ := (⌊clampNumber (some s.months) 1 24⌋).toNat
  let principal := clampNumber (some s.balances.Yield) 0 MAX_SAFE_INTEGER
  (List.range m).map fun (i : ℕ) =>
    (jsRound (principal * onchainMonthlyRate s.onchainApyPct * ((i : ℚ) + 1)),
     jsRound (principal * bankMonthlyRate s.bankApyPct * ((i : ℚ) + 1)))

/-- `canContinue`: the Next button's step gating. -/
def canContinue (s : DashState) : Bool :=
  if s.step = 1 then decide (s.connectionMode ≠ .NotConnected)
  else if s.step = 2 then true
  else if s.step = 3 then (if s.requiresApproval then s.approved else true)
  else true

/-- `canExecuteSweep`: connected, approval satisfied, and a positive
recommended sweep amount. -/
def canExecuteSweep (s : DashState) : Bool :=
  if s.connectionMode = .NotConnected then false
  else if s.requiresApproval && !s.approved then false
  else if (recommendation s).sweepAmount ≤ 0 then false
  else true

/-- `executeSweep(path)`: guarded by `canExecuteSweep`; on success moves
the recommended amount from Operating to Yield, records `lastSweep`,
prepends a `SWEEP_EXECUTED` event, resets approval, and jumps the guided
flow to step 4. -/
def executeSweep (path : SweepPath) (ts : ℤ) (s : DashState) : DashState :=
  if canExecuteSweep s then
    let sweep := (recommendation s).sweepAmount
    { s with
      balances := { s.balances with
        Operating := s.balances.Operating - sweep
        Yield := s.balances.Yield + sweep }
      lastSweep := some { sweptAmount := sweep, timestamp := ts, path := path }
      events := .SWEEP_EXECUTED ts sweep path :: s.events
      approved := false
      step := 4 }
  else s

/-- The fixed state written by `loadDemoScenario`. -/
def demoState : DashState where
  balances := { Operating := 80000, Yield := 320000, Payment := 15000 }
  operatingTarget := 60000
  bankApyPct := 1 / 5
  onchainApyPct := 5
  months := 6
  step := 1
  connectionMode := .NotConnected
  requiresApproval := true
  approved := false
  events := []
  lastSweep := none

/-- The two connected modes accepted by `connect` (its parameter type is
`Exclude<ConnectionMode, "NotConnected">`). -/
inductive LinkMode
  | DemoBankFeed
  | Wallet
deriving DecidableEq

def LinkMode.mode : LinkMode → ConnectionMode
  | .DemoBankFeed => .DemoBankFeed
  | .Wallet => .Wallet

/-- The user-triggerable operations of the `part_000` dashboard.  Raw
text inputs are carried as strings; the APY and month setters receive
`Number(e.target.value)` directly, modelled as `Option ℚ` with `none`
for `NaN`.  `stepGoto` is invoked by the UI with the literals 1–4 only.
Timestamps (`Date.now()`) are inputs to the transition. -/
inductive Op
  | changeBalance (k : WalletKey) (raw : String) (ts : ℤ)
  | setTarget (raw : String) (ts : ℤ)
  | setBankApy (v : Option ℚ) (ts : ℤ)
  | setOnchainApy (v : Option ℚ) (ts : ℤ)
  | setMonths (v : Option ℚ)
  | connect (m : LinkMode) (ts : ℤ)
  | disconnect
  | toggleApproval (checked : Bool)
  | approve
  | executeSweep (path : SweepPath) (ts : ℤ)
  | loadDemoScenario
  | clearEvents
  | stepNext
  | stepBack
  | stepGoto (n : ℕ)

/-- One user action of the `part_000` dashboard, exactly as its handler
performs it. -/
def applyOp (op : Op) (s : DashState) : DashState :=
  match op with
  | .changeBalance k raw ts =>
      let next := clampNumber (some (parseCurrencyInput raw)) 0 MAX_SAFE_INTEGER
      { s with
        balances := setBal s.balances k next
        events := .BALANCE_UPDATED ts k next :: s.events }
  | .setTarget raw ts =>
      let next := clampNumber (some (parseCurrencyInput raw)) 0 MAX_SAFE_INTEGER
      { s with
        operatingTarget := next
        events := .POLICY_UPDATED ts next s.bankApyPct s.onchainApyPct
          "Updated operating target" :: s.events }
  | .setBankApy v ts =>
      let next := clampNumber v 0 100
      { s with
        bankApyPct := next
        events := .POLICY_UPDATED ts s.operatingTarget next s.onchainApyPct
          "Updated bank APY" :: s.events }
  | .setOnchainApy v ts =>
      let next := clampNumber v 0 100
      { s with
        onchainApyPct := next
        events := .POLICY_UPDATED ts s.operatingTarget s.bankApyPct next
          "Updated on-chain APY" :: s.events }
  | .setMonths v => { s with months := clampNumber v 1 24 }
  | .connect m ts =>
      { s with
        connectionMode := m.mode
        events := .CONNECTED ts m.mode :: s.events }
  | .disconnect => { s with connectionMode := .NotConnected }
  | .toggleApproval checked => { s with requiresApproval := checked, approved := false }
  | .approve => { s with approved := true }
  | .executeSweep path ts => executeSweep path ts s
  | .loadDemoScenario => demoState
  | .clearEvents => { s with events := [] }
  | .stepNext =>
      if canContinue s then
        (if s.step < 4 then { s with step := s.step + 1 } else s)
      else s
  | .stepBack => if 1 < s.step then { s with step := s.step - 1 } else s
  | .stepGoto n => { s with step := n }

/-- Run a sequence of user actions from the initial state. -/
def runOps (ops : List Op) : DashState :=
  ops.foldl (fun s op => applyOp op s) initialState

/-- Erase the path metadata from a `SWEEP_EXECUTED` event. -/
def stripPath : TreasuryEvent → TreasuryEvent
  | .SWEEP_EXECUTED ts amount _ => .SWEEP_EXECUTED ts amount .Guided
  | e => e

/-- Erase the path metadata from a `lastSweep` summary. -/
def stripLastSweepPath (l : LastSweep) : ℚ × ℤ :=
  (l.sweptAmount, l.timestamp)

end Treasury

namespace PageTsx

open Treasury (ConnectionMode WalletKey Balances clampNumber parseCurrencyInput
  MAX_SAFE_INTEGER getBal setBal)

/-- The `TreasuryEvent` union of `src/app/page.tsx`: no balance-update
variant, and `SWEEP_EXECUTED` carries no path. -/
inductive PEvent
  | CONNECTED (ts : ℤ) (mode : ConnectionMode)
  | POLICY_UPDATED (ts : ℤ) (operatingTarget bankApyPct onchainApyPct : ℚ) (note : String)
  | SWEEP_EXECUTED (ts : ℤ) (amount : ℚ)
deriving DecidableEq

/-- The React state of the `page.tsx` dashboard component; its
`lastSweep` is `{sweptAmount, timestamp}` with no path. -/
structure PState where
  balances : Balances
  operatingTarget : ℚ
  bankApyPct : ℚ
  onchainApyPct : ℚ
  months : ℚ
  step : ℕ
  connectionMode : ConnectionMode
  requiresApproval : Bool
  approved : Bool
  events : List PEvent
  lastSweep : Option (ℚ × ℤ)
deriving DecidableEq

/-- The `useState` defaults of `page.tsx` (identical to `part_000`). -/
def pInitialState : PState where
  balances := { Operating := 50000, Yield := 250000, Payment := 20000 }
  operatingTarget := 50000
  bankApyPct := 1 / 5
  onchainApyPct := 5
  months := 6
  step := 1
  connectionMode := .NotConnected
  requiresApproval := true
  approved := false
  events := []
  lastSweep := none

/-- `page.tsx`'s `recommendation.sweepAmount` (same formula as
`part_000`). -/
def sweepAmount (s : PState) : ℚ :=
  max 0 (s.balances.Operating - s.operatingTarget)

/-- `page.tsx`'s `onChangeBalance`: parse, clamp and store; unlike
`part_000` it emits no audit event. -/
def onChangeBalance (k : WalletKey) (raw : String) (s : PState) : PState :=
  let next := clampNumber (some (parseCurrencyInput raw)) 0 MAX_SAFE_INTEGER
  { s with balances := setBal s.balances k next }

/-- `page.tsx`'s `handleSimulateSweep`: when not connected it jumps the
guided flow back to step 1; when the approval gate blocks it returns
unchanged; when the recommended amount is not positive it overwrites
`lastSweep` with amount 0; otherwise it performs the transfer, records
`lastSweep`, appends `SWEEP_EXECUTED`, resets approval and advances to
step 4. -/
def handleSimulateSweep (ts : ℤ) (s : PState) : PState :=
  if s.connectionMode = .NotConnected then { s with step := 1 }
  else if s.requiresApproval && !s.approved then s
  else
    let sweep := sweepAmount s
    if sweep ≤ 0 then { s with lastSweep := some (0, ts) }
    else
      { s with
        balances := { s.balances with
          Operating := s.balances.Operating - sweep
          Yield := s.balances.Yield + sweep }
        lastSweep := some (sweep, ts)
        events := .SWEEP_EXECUTED ts sweep :: s.events
        approved := false
        step := 4 }

/-- `page.tsx`'s `totalCash`. -/
def pTotalCash (s : PState) : ℚ :=
  s.balances.Operating + s.balances.Yield + s.balances.Payment

/-- A `page.tsx` state at guided step 3 with a positive excess and a
granted approval but no connection: every execution gate except the
connection holds. -/
def notConnectedState : PState :=
  { pInitialState with
      step := 3
      approved := true
      balances := { Operating := 80000, Yield := 250000, Payment := 20000 } }

/-- A connected, approved `page.tsx` state whose Operating balance sits
exactly at the target, so the recommended sweep is 0. -/
def nothingToSweepState : PState :=
  { pInitialState with
      step := 3
      approved := true
      connectionMode := .Wallet }

end PageTsx

namespace Treasury

/-- The demo scenario after connecting a wallet and granting approval:
every execution gate holds. -/
def executableState : DashState :=
  { demoState with connectionMode := .Wallet, approved := true }

/-- The reachability invariant of the ledger: the three balances and the
operating target are non-negative. -/
def LedgerInv (s : DashState) : Prop :=
  0 ≤ s.balances.Operating ∧ 0 ≤ s.balances.Yield ∧ 0 ≤ s.balances.Payment ∧
    0 ≤ s.operatingTarget

end Treasury

open Treasury PageTsx

lemma le_clampNumber (v : Option ℚ) {lo hi : ℚ} (h : lo ≤ hi) :
    lo ≤ clampNumber v lo hi := by
  cases v with
  | none => simp [clampNumber]
  | some q =>
    simp only [clampNumber, le_min_iff]
    exact ⟨le_max_right q lo, h⟩

lemma clampNumber_le (v : Option ℚ) {lo hi : ℚ} (h : lo ≤ hi) :
    clampNumber v lo hi ≤ hi := by
  cases v with
  | none => exact h
  | some q => simp [clampNumber]

lemma clampNumber_eq_self {q lo hi : ℚ} (h1 : lo ≤ q) (h2 : q ≤ hi) :
    clampNumber (some q) lo hi = q := by
  simp [clampNumber, max_eq_left h1, min_eq_left h2]

lemma excessOperating_nonneg (s : DashState) : 0 ≤ excessOperating s :=
  le_max_left 0 _

lemma excessOperating_pos_eq (s : DashState) (h : 0 < excessOperating s) :
    excessOperating s = s.balances.Operating - s.operatingTarget := by
  by_cases hd : s.balances.Operating - s.operatingTarget ≤ 0
  · rw [excessOperating, max_eq_left hd] at h
    exact absurd h (lt_irrefl 0)
  · exact max_eq_right (le_of_not_le hd)

lemma canExecuteSweep_spec (s : DashState) (h : canExecuteSweep s = true) :
    s.connectionMode ≠ .NotConnected ∧ (s.requiresApproval = true → s.approved = true) ∧
      0 < (recommendation s).sweepAmount := by
  unfold canExecuteSweep at h
  split_ifs at h with h1 h2 h3
  exact ⟨h1, fun hr => by
    cases ha : s.approved
    · exact absurd (by simp [hr, ha]) h2
    · rfl, lt_of_not_le h3⟩

lemma canExecuteSweep_executableState : canExecuteSweep executableState = true := by
  have hpos : (0 : ℚ) < (recommendation executableState).sweepAmount := by
    norm_num [recommendation, excessOperating, executableState, demoState, max_def]
  unfold canExecuteSweep
  rw [if_neg (by simp [executableState, demoState]),
    if_neg (by simp [executableState, demoState]), if_neg (not_le.mpr hpos)]

/-- C2: when the sweep is executable, executing it (in either variant)
subtracts the recommended amount from Operating, adds it to Yield,
leaves Payment unchanged, and conserves total cash. -/
theorem sweep_transfer_exact :
    (∀ (s : DashState) (path : SweepPath) (ts : ℤ), canExecuteSweep s = true →
      (executeSweep path ts s).balances.Operating
          = s.balances.Operating - (recommendation s).sweepAmount ∧
      (executeSweep path ts s).balances.Yield
          = s.balances.Yield + (recommendation s).sweepAmount ∧
      (executeSweep path ts s).balances.Payment = s.balances.Payment ∧
      totalCash (executeSweep path ts s) = totalCash s) ∧
    (∀ (p : PState) (ts : ℤ), p.connectionMode ≠ .NotConnected →
      (p.requiresApproval = true → p.approved = true) → 0 < PageTsx.sweepAmount p →
      (handleSimulateSweep ts p).balances.Operating
          = p.balances.Operating - PageTsx.sweepAmount p ∧
      (handleSimulateSweep ts p).balances.Yield
          = p.balances.Yield + PageTsx.sweepAmount p ∧
      (handleSimulateSweep ts p).balances.Payment = p.balances.Payment ∧
      pTotalCash (handleSimulateSweep ts p) = pTotalCash p) := by
  constructor
  · intro s path ts h
    unfold executeSweep
    rw [if_pos h]
    refine ⟨rfl, rfl, rfl, ?_⟩
    simp only [totalCash]
    ring
  · intro p ts hc ha hs
    unfold handleSimulateSweep
    rw [if_neg hc]
    have hb : (p.requiresApproval && !p.approved) = false := by
      cases hr : p.requiresApproval
      · simp
      · simp [ha hr]
    rw [hb, if_neg (by simp)]
    rw [if_neg (not_le.mpr hs)]
    refine ⟨rfl, rfl, rfl, ?_⟩
    simp only [pTotalCash]
    ring

/-- C2 witness: executing the quick sweep on the connected, approved
demo scenario conserves total cash and leaves Payment unchanged. -/
theorem sweep_transfer_exact_witness :
    totalCash (executeSweep SweepPath.Quick 0 executableState) = totalCash executableState ∧
      (executeSweep SweepPath.Quick 0 executableState).balances.Payment
        = executableState.balances.Payment := by
  have h := sweep_transfer_exact.1 executableState SweepPath.Quick 0 canExecuteSweep_executableState
  exact ⟨h.2.2.2, h.2.2.1⟩

/-- C3: the recommendation is a pure function of the Operating balance
and the operating target with `sweepAmount = max 0 (Operating − target)`,
never negative; at exact equality the amount is 0 with the "no sweep"
rationale, and a positive amount always carries the "exceeds target"
rationale. -/
theorem recommendation_spec (s : DashState) :
    (recommendation s).sweepAmount = max 0 (s.balances.Operating - s.operatingTarget) ∧
    0 ≤ (recommendation s).sweepAmount ∧
    (s.balances.Operating = s.operatingTarget →
      (recommendation s).sweepAmount = 0 ∧ (recommendation s).rationale = .noSweep) ∧
    (0 < (recommendation s).sweepAmount →
      (recommendation s).rationale = .exceedsTarget ((recommendation s).sweepAmount)) ∧
    (∀ s' : DashState, s.balances.Operating = s'.balances.Operating →
      s.operatingTarget = s'.operatingTarget → recommendation s = recommendation s') := by
  refine ⟨rfl, excessOperating_nonneg s, ?_, ?_, ?_⟩
  · intro h
    have hz : excessOperating s = 0 := by simp [excessOperating, h]
    constructor
    · exact hz
    · simp [recommendation, hz]
  · intro h
    have h' : 0 < excessOperating s := h
    simp only [recommendation]
    rw [if_pos h']
  · intro s' h1 h2
    simp [recommendation, excessOperating, h1, h2]

/-- C3 witness: on the demo scenario (Operating 80000, target 60000) the
recommended sweep is 20000 with the "exceeds target" rationale. -/
theorem recommendation_spec_witness :
    (recommendation demoState).sweepAmount = 20000 ∧
      (recommendation demoState).rationale = Rationale.exceedsTarget 20000 := by
  have h := recommendation_spec demoState
  have hs : (recommendation demoState).sweepAmount = 20000 := by
    rw [h.1]
    norm_num [demoState, max_def]
  refine ⟨hs, ?_⟩
  have hr := h.2.2.2.1 (by rw [hs]; norm_num)
  rw [hr, hs]

/-- C10: immediately after a successful sweep, the Operating balance
equals the operating target exactly. -/
theorem sweep_lands_on_target (s : DashState) (path : SweepPath) (ts : ℤ)
    (h : canExecuteSweep s = true) :
    (executeSweep path ts s).balances.Operating = s.operatingTarget := by
  have hpos := (canExecuteSweep_spec s h).2.2
  have hx : excessOperating s = s.balances.Operating - s.operatingTarget :=
    excessOperating_pos_eq s hpos
  unfold executeSweep
  rw [if_pos h]
  show s.balances.Operating - (recommendation s).sweepAmount = s.operatingTarget
  show s.balances.Operating - excessOperating s = s.operatingTarget
  rw [hx]
  ring

/-- C10 witness: on the connected, approved demo scenario the quick
sweep leaves Operating exactly at the 60000 target. -/
theorem sweep_lands_on_target_witness :
    (executeSweep SweepPath.Quick 0 executableState).balances.Operating = 60000 := by
  have h := sweep_lands_on_target executableState SweepPath.Quick 0 canExecuteSweep_executableState
  rw [h]
  norm_num [executableState, demoState]

/-- C7: the Guided and the Quick entry points of `executeSweep` perform
the same state transition; the path argument shows up only in the
`SWEEP_EXECUTED` audit metadata and the `lastSweep` summary. -/
theorem sweep_path_irrelevant (s : DashState) (ts : ℤ) :
    (executeSweep .Guided ts s).balances = (executeSweep .Quick ts s).balances ∧
    (executeSweep .Guided ts s).operatingTarget = (executeSweep .Quick ts s).operatingTarget ∧
    (executeSweep .Guided ts s).bankApyPct = (executeSweep .Quick ts s).bankApyPct ∧
    (executeSweep .Guided ts s).onchainApyPct = (executeSweep .Quick ts s).onchainApyPct ∧
    (executeSweep .Guided ts s).months = (executeSweep .Quick ts s).months ∧
    (executeSweep .Guided ts s).step = (executeSweep .Quick ts s).step ∧
    (executeSweep .Guided ts s).connectionMode = (executeSweep .Quick ts s).connectionMode ∧
    (executeSweep .Guided ts s).requiresApproval = (executeSweep .Quick ts s).requiresApproval ∧
    (executeSweep .Guided ts s).approved = (executeSweep .Quick ts s).approved ∧
    (executeSweep .Guided ts s).events.map stripPath
        = (executeSweep .Quick ts s).events.map stripPath ∧
    ((executeSweep .Guided ts s).lastSweep).map stripLastSweepPath
        = ((executeSweep .Quick ts s).lastSweep).map stripLastSweepPath := by
  unfold executeSweep
  by_cases h : canExecuteSweep s = true
  · rw [if_pos h, if_pos h]
    refine ⟨rfl, rfl, rfl, rfl, rfl, rfl, rfl, rfl, rfl, ?_, rfl⟩
    simp [stripPath]
  · rw [if_neg h, if_neg h]
    exact ⟨rfl, rfl, rfl, rfl, rfl, rfl, rfl, rfl, rfl, rfl, rfl⟩

/-- C1 (amended): `part_000`'s `executeSweep` is a complete no-op when
any gating condition fails; `page.tsx`'s `handleSimulateSweep` then
appends no event and leaves balances and the approval flag unchanged,
but when not connected it resets the guided-flow step to 1, and when
connected with approval satisfied but no positive recommendation it
overwrites `lastSweep` with amount 0. -/
theorem gated_sweep_noop :
    (∀ (s : DashState) (path : SweepPath) (ts : ℤ), canExecuteSweep s = false →
      executeSweep path ts s = s) ∧
    (∀ (p : PState) (ts : ℤ),
      (p.connectionMode = .NotConnected →
        handleSimulateSweep ts p = { p with step := 1 }) ∧
      (p.connectionMode ≠ .NotConnected → p.requiresApproval = true → p.approved = false →
        handleSimulateSweep ts p = p) ∧
      (p.connectionMode ≠ .NotConnected → (p.requiresApproval = false ∨ p.approved = true) →
        PageTsx.sweepAmount p ≤ 0 →
        handleSimulateSweep ts p = { p with lastSweep := some (0, ts) })) := by
  constructor
  · intro s path ts h
    unfold executeSweep
    rw [if_neg (by simp [h])]
  · intro p ts
    refine ⟨?_, ?_, ?_⟩
    · intro hc
      unfold handleSimulateSweep
      rw [if_pos hc]
    · intro hc hr ha
      unfold handleSimulateSweep
      rw [if_neg hc, if_pos (by simp [hr, ha])]
    · intro hc hsat hs
      unfold handleSimulateSweep
      have hb : (p.requiresApproval && !p.approved) = false := by
        cases hsat with
        | inl h => simp [h]
        | inr h => simp [h]
      rw [if_neg hc, hb, if_neg (by simp), if_pos hs]

/-- C1 counterexample: on `page.tsx`, a gated call of the sweep
execution is not a complete no-op — not connected (with positive excess
and approval granted) it moves the guided flow from step 3 back to 1,
and a connected, approved call with nothing to sweep overwrites
`lastSweep`. -/
theorem gated_sweep_noop_cex :
    notConnectedState.step = 3 ∧
    (handleSimulateSweep 0 notConnectedState).step = 1 ∧
    nothingToSweepState.lastSweep = none ∧
    (handleSimulateSweep 0 nothingToSweepState).lastSweep = some (0, 0) := by
  refine ⟨rfl, ?_, rfl, ?_⟩
  · unfold handleSimulateSweep
    rw [if_pos (by simp [notConnectedState, pInitialState])]
  · unfold handleSimulateSweep
    rw [if_neg (by simp [nothingToSweepState, pInitialState]),
      if_neg (by simp [nothingToSweepState, pInitialState])]
    rw [if_pos (by norm_num [PageTsx.sweepAmount, nothingToSweepState, pInitialState, max_def])]

/-- C1 witness: on the initial (not yet connected) state, `part_000`'s
`executeSweep` changes nothing at all. -/
theorem gated_sweep_noop_witness :
    executeSweep SweepPath.Quick 0 initialState = initialState :=
  gated_sweep_noop.1 initialState SweepPath.Quick 0 (by rfl)

/-- C6: toggling the approval-required checkbox (either direction)
always resets `approved` to false, every successful sweep resets
`approved` to false, and no operation other than the explicit approve
action ever turns `approved` from false to true. -/
theorem approval_reset_spec :
    (∀ (s : DashState) (checked : Bool),
      (applyOp (.toggleApproval checked) s).approved = false) ∧
    (∀ (s : DashState) (path : SweepPath) (ts : ℤ), canExecuteSweep s = true →
      (executeSweep path ts s).approved = false) ∧
    (∀ (s : DashState) (op : Op), (applyOp op s).approved = true →
      s.approved = true ∨ op = .approve) := by
  refine ⟨fun s checked => rfl, ?_, ?_⟩
  · intro s path ts h
    unfold executeSweep
    rw [if_pos h]
  · intro s op h
    cases op with
    | executeSweep path ts =>
      simp only [applyOp] at h
      unfold executeSweep at h
      split at h
      · exact absurd h (by simp)
      · exact Or.inl h
    | loadDemoScenario => exact absurd h (by simp [applyOp, demoState])
    | approve => exact Or.inr rfl
    | toggleApproval checked => exact absurd h (by simp [applyOp])
    | stepNext =>
      simp only [applyOp] at h
      split at h
      · split at h
        · exact Or.inl h
        · exact Or.inl h
      · exact Or.inl h
    | stepBack =>
      simp only [applyOp] at h
      split at h
      · exact Or.inl h
      · exact Or.inl h
    | _ => exact Or.inl h

/-- C6 witness: toggling the checkbox off clears a granted approval, and
the executable demo scenario's sweep clears it as well. -/
theorem approval_reset_spec_witness :
    (applyOp (Op.toggleApproval false) executableState).approved = false ∧
      (executeSweep SweepPath.Guided 0 executableState).approved = false :=
  ⟨approval_reset_spec.1 executableState false,
    approval_reset_spec.2.1 executableState SweepPath.Guided 0 canExecuteSweep_executableState⟩

lemma inv_initialState : LedgerInv initialState := by
  refine ⟨?_, ?_, ?_, ?_⟩ <;> norm_num [initialState, LedgerInv]

lemma inv_applyOp (op : Op) (s : DashState) (h : LedgerInv s) : LedgerInv (applyOp op s) := by
  obtain ⟨hO, hY, hP, hT⟩ := h
  have hsafe : (0 : ℚ) ≤ MAX_SAFE_INTEGER := by norm_num [MAX_SAFE_INTEGER]
  cases op with
  | changeBalance k raw ts =>
    have hnext := le_clampNumber (some (parseCurrencyInput raw)) hsafe
    cases k with
    | Operating => exact ⟨hnext, hY, hP, hT⟩
    | Yield => exact ⟨hO, hnext, hP, hT⟩
    | Payment => exact ⟨hO, hY, hnext, hT⟩
  | setTarget raw ts =>
    exact ⟨hO, hY, hP, le_clampNumber (some (parseCurrencyInput raw)) hsafe⟩
  | setBankApy v ts => exact ⟨hO, hY, hP, hT⟩
  | setOnchainApy v ts => exact ⟨hO, hY, hP, hT⟩
  | setMonths v => exact ⟨hO, hY, hP, hT⟩
  | connect m ts => exact ⟨hO, hY, hP, hT⟩
  | disconnect => exact ⟨hO, hY, hP, hT⟩
  | toggleApproval checked => exact ⟨hO, hY, hP, hT⟩
  | approve => exact ⟨hO, hY, hP, hT⟩
  | executeSweep path ts =>
    simp only [applyOp]
    unfold executeSweep
    by_cases hc : canExecuteSweep s = true
    · rw [if_pos hc]
      have hpos := (canExecuteSweep_spec s hc).2.2
      have hx : excessOperating s = s.balances.Operating - s.operatingTarget :=
        excessOperating_pos_eq s hpos
      refine ⟨?_, ?_, hP, hT⟩
      · show 0 ≤ s.balances.Operating - (recommendation s).sweepAmount
        show 0 ≤ s.balances.Operating - excessOperating s
        rw [hx]
        linarith
      · show 0 ≤ s.balances.Yield + (recommendation s).sweepAmount
        have := excessOperating_nonneg s
        show 0 ≤ s.balances.Yield + excessOperating s
        linarith
    · rw [if_neg hc]
      exact ⟨hO, hY, hP, hT⟩
  | loadDemoScenario =>
    refine ⟨?_, ?_, ?_, ?_⟩ <;> norm_num [applyOp, demoState]
  | clearEvents => exact ⟨hO, hY, hP, hT⟩
  | stepNext =>
    simp only [applyOp]
    split
    · split
      · exact ⟨hO, hY, hP, hT⟩
      · exact ⟨hO, hY, hP, hT⟩
    · exact ⟨hO, hY, hP, hT⟩
  | stepBack =>
    simp only [applyOp]
    split
    · exact ⟨hO, hY, hP, hT⟩
    · exact ⟨hO, hY, hP, hT⟩
  | stepGoto n => exact ⟨hO, hY, hP, hT⟩

lemma inv_foldl (ops : List Op) (s : DashState) (h : LedgerInv s) :
    LedgerInv (ops.foldl (fun s op => applyOp op s) s) := by
  induction ops generalizing s with
  | nil => exact h
  | cons op rest ih => exact ih (applyOp op s) (inv_applyOp op s h)

/-- C4: under every sequence of user operations (balance edits with raw
text, policy edits, sweeps, …) all three stored balances stay
non-negative; edits are clamped at 0 rather than rejected. -/
theorem balances_never_negative (ops : List Op) :
    0 ≤ (runOps ops).balances.Operating ∧
    0 ≤ (runOps ops).balances.Yield ∧
    0 ≤ (runOps ops).balances.Payment := by
  have h := inv_foldl ops initialState inv_initialState
  exact ⟨h.1, h.2.1, h.2.2.1⟩

lemma intFracValue_nonneg (l : List Char) : 0 ≤ intFracValue l := by
  unfold intFracValue fracValue
  positivity

lemma parseCurrencyInput_nonneg (s : String) : 0 ≤ parseCurrencyInput s := by
  unfold parseCurrencyInput jsNumber
  split_ifs with h1 h2 h3 h4 <;> simp [intFracValue_nonneg]

/-- C5 (amended): a balance edit parses the raw input to a non-negative
number (non-finite or unparsable input yielding 0), clamps it to the
range `[0, Number.MAX_SAFE_INTEGER]`, and stores it in the edited
account, leaving the other accounts and the rest of the state alone; in
`part_000` it also prepends a `BALANCE_UPDATED` event carrying the
account and the new value, while in `page.tsx` no audit event is
emitted. -/
theorem balance_edit_spec :
    (∀ raw : String, 0 ≤ parseCurrencyInput raw) ∧
    (∀ (s : DashState) (k : WalletKey) (raw : String) (ts : ℤ),
      getBal (applyOp (.changeBalance k raw ts) s).balances k
          = clampNumber (some (parseCurrencyInput raw)) 0 MAX_SAFE_INTEGER ∧
      (∀ k' : WalletKey, k' ≠ k →
        getBal (applyOp (.changeBalance k raw ts) s).balances k' = getBal s.balances k') ∧
      (applyOp (.changeBalance k raw ts) s).events
          = .BALANCE_UPDATED ts k (clampNumber (some (parseCurrencyInput raw)) 0 MAX_SAFE_INTEGER)
              :: s.events ∧
      (applyOp (.changeBalance k raw ts) s).operatingTarget = s.operatingTarget ∧
      (applyOp (.changeBalance k raw ts) s).approved = s.approved ∧
      (applyOp (.changeBalance k raw ts) s).step = s.step) ∧
    (∀ (p : PState) (k : WalletKey) (raw : String),
      getBal (onChangeBalance k raw p).balances k
          = clampNumber (some (parseCurrencyInput raw)) 0 MAX_SAFE_INTEGER ∧
      (onChangeBalance k raw p).events = p.events) := by
  refine ⟨parseCurrencyInput_nonneg, ?_, ?_⟩
  · intro s k raw ts
    refine ⟨by cases k <;> rfl, ?_, rfl, rfl, rfl, rfl⟩
    intro k' hk
    cases k <;> cases k' <;> first | rfl | exact absurd rfl hk
  · intro p k raw
    exact ⟨by cases k <;> rfl, rfl⟩

lemma parseCurrencyInput_big : parseCurrencyInput "10000000000000000" = 10 ^ 16 := by
  have hclean : cleanCurrency "10000000000000000"
      = ['1', '0', '0', '0', '0', '0', '0', '0', '0', '0', '0', '0', '0', '0', '0', '0', '0'] := rfl
  have hd : digitsToNat ['1', '0', '0', '0', '0', '0', '0', '0', '0', '0', '0', '0', '0', '0', '0', '0', '0']
      = 10 ^ 16 := by decide
  have hv : intFracValue ['1', '0', '0', '0', '0', '0', '0', '0', '0', '0', '0', '0', '0', '0', '0', '0', '0']
      = 10 ^ 16 := by
    rw [intFracValue,
      show (['1', '0', '0', '0', '0', '0', '0', '0', '0', '0', '0', '0', '0', '0', '0', '0', '0']
          : List Char).takeWhile (fun c => c ≠ '.')
        = ['1', '0', '0', '0', '0', '0', '0', '0', '0', '0', '0', '0', '0', '0', '0', '0', '0'] from rfl,
      show ((['1', '0', '0', '0', '0', '0', '0', '0', '0', '0', '0', '0', '0', '0', '0', '0', '0']
          : List Char).dropWhile (fun c => c ≠ '.')).drop 1 = [] from rfl, hd]
    norm_num [fracValue, digitsToNat]
  rw [parseCurrencyInput, hclean, jsNumber]
  rw [if_neg (by decide), if_neg (by decide), if_neg (by decide), if_pos]
  · rw [Option.getD_some, hv]
  · rw [hv]
    norm_num [MAX_DOUBLE_BOUND]

/-- C5 counterexample: the raw input `"10000000000000000"` parses to
`10 ^ 16`, yet the stored balance is `Number.MAX_SAFE_INTEGER` — the
edit clamps above as well as below, so it does not store the parsed
value; and on `page.tsx` a balance edit emits no audit event at all. -/
theorem balance_edit_cex :
    parseCurrencyInput "10000000000000000" = 10 ^ 16 ∧
    (applyOp (.changeBalance .Operating "10000000000000000" 0) initialState).balances.Operating
        = 9007199254740991 ∧
    (9007199254740991 : ℚ) ≠ 10 ^ 16 ∧
    (onChangeBalance .Operating "123" pInitialState).events = [] := by
  refine ⟨parseCurrencyInput_big, ?_, by norm_num, rfl⟩
  show clampNumber (some (parseCurrencyInput "10000000000000000")) 0 MAX_SAFE_INTEGER
      = 9007199254740991
  rw [parseCurrencyInput_big]
  norm_num [clampNumber, MAX_SAFE_INTEGER, max_def, min_def]

/-- C5 witness: editing the Payment balance to `"42"` on the initial
state stores a non-negative value and logs exactly one
`BALANCE_UPDATED` event for it. -/
theorem balance_edit_spec_witness :
    0 ≤ parseCurrencyInput "42" ∧
    (applyOp (.changeBalance .Payment "42" 7) initialState).events
        = [TreasuryEvent.BALANCE_UPDATED 7 WalletKey.Payment
            (clampNumber (some (parseCurrencyInput "42")) 0 MAX_SAFE_INTEGER)] := by
  refine ⟨balance_edit_spec.1 "42", ?_⟩
  have h := (balance_edit_spec.2.1 initialState .Payment "42" 7).2.2.1
  rw [h]
  rfl

/-- C9 (amended): the simulation-horizon setter stores
`clampNumber(Number(raw), 1, 24)`: always a number in `[1, 24]`, with
`NaN` becoming the floor 1 and in-range values stored as given — fractional
values are not rounded to an integer. -/
theorem months_setter_spec (s : DashState) (v : Option ℚ) :
    1 ≤ (applyOp (.setMonths v) s).months ∧
    (applyOp (.setMonths v) s).months ≤ 24 ∧
    (v = none → (applyOp (.setMonths v) s).months = 1) ∧
    (∀ q : ℚ, v = some q → (applyOp (.setMonths v) s).months = min (max q 1) 24) := by
  refine ⟨le_clampNumber v (by norm_num), clampNumber_le v (by norm_num), ?_, ?_⟩
  · intro h
    subst h
    rfl
  · intro q h
    subst h
    rfl

/-- C9 counterexample: the raw numeric input 5/2 (= "2.5") is stored as
the non-integer 5/2, so the stored horizon is not always an integer. -/
theorem months_setter_cex :
    (applyOp (.setMonths (some (5 / 2))) initialState).months = 5 / 2 ∧
    ¬ ∃ z : ℤ, ((5 : ℚ) / 2) = (z : ℚ) := by
  constructor
  · show clampNumber (some (5 / 2)) 1 24 = 5 / 2
    norm_num [clampNumber, max_def, min_def]
  · rintro ⟨z, hz⟩
    have h2 : (5 : ℚ) = 2 * (z : ℚ) := by
      field_simp at hz
      linarith
    have h3 : (5 : ℤ) = 2 * z := by exact_mod_cast h2
    omega

/-- C9 witness: input 30 is clamped down to 24 and `NaN` becomes 1. -/
theorem months_setter_spec_witness :
    (applyOp (Op.setMonths (some 30)) initialState).months = 24 ∧
    (applyOp (Op.setMonths none) initialState).months = 1 := by
  constructor
  · rw [(months_setter_spec initialState (some 30)).2.2.2 30 rfl]
    norm_num [max_def, min_def]
  · exact (months_setter_spec initialState none).2.2.1 rfl

/-- C8: for any principal within the clamp range, rates in [0,100] and
integer horizon `k` in [1,24], the projection series has one point per
month index `n = 1..k`, and the point for month `n = i + 1` holds the
rounded non-compounding cumulative yields
`round(principal * (rate/100/12) * n)` for the on-chain and the bank
rate. -/
theorem yieldSimulation_spec (s : DashState) (k : ℕ) (hk1 : 1 ≤ k) (hk2 : k ≤ 24)
    (hm : s.months = (k : ℚ))
    (hY0 : 0 ≤ s.balances.Yield) (hY1 : s.balances.Yield ≤ MAX_SAFE_INTEGER)
    (hb0 : 0 ≤ s.bankApyPct) (hb1 : s.bankApyPct ≤ 100)
    (ho0 : 0 ≤ s.onchainApyPct) (ho1 : s.onchainApyPct ≤ 100) :
    (yieldSimulation s).length = k ∧
    ∀ i : ℕ, i < k →
      (yieldSimulation s).get? i =
        some (jsRound (s.balances.Yield * (s.onchainApyPct / 100 / 12) * ((i : ℚ) + 1)),
              jsRound (s.balances.Yield * (s.bankApyPct / 100 / 12) * ((i : ℚ) + 1))) := by
  have hcl : clampNumber (some s.months) 1 24 = (k : ℚ) := by
    rw [hm]
    exact clampNumber_eq_self (by exact_mod_cast hk1) (by exact_mod_cast hk2)
  have hfl : (⌊clampNumber (some s.months) 1 24⌋).toNat = k := by
    rw [hcl, Int.floor_natCast]
    simp
  have hpr : clampNumber (some s.balances.Yield) 0 MAX_SAFE_INTEGER = s.balances.Yield :=
    clampNumber_eq_self hY0 hY1
  have hro : onchainMonthlyRate s.onchainApyPct = s.onchainApyPct / 100 / 12 := by
    unfold onchainMonthlyRate
    rw [clampNumber_eq_self ho0 ho1]
  have hrb : bankMonthlyRate s.bankApyPct = s.bankApyPct / 100 / 12 := by
    unfold bankMonthlyRate
    rw [clampNumber_eq_self hb0 hb1]
  have hmain : yieldSimulation s = (List.range k).map (fun (i : ℕ) =>
      (jsRound (s.balances.Yield * (s.onchainApyPct / 100 / 12) * ((i : ℚ) + 1)),
       jsRound (s.balances.Yield * (s.bankApyPct / 100 / 12) * ((i : ℚ) + 1)))) := by
    show (List.range ((⌊clampNumber (some s.months) 1 24⌋).toNat)).map (fun (i : ℕ) =>
        (jsRound (clampNumber (some s.balances.Yield) 0 MAX_SAFE_INTEGER
            * onchainMonthlyRate s.onchainApyPct * ((i : ℚ) + 1)),
         jsRound (clampNumber (some s.balances.Yield) 0 MAX_SAFE_INTEGER
            * bankMonthlyRate s.bankApyPct * ((i : ℚ) + 1)))) = _
    rw [hfl, hpr, hro, hrb]
  rw [hmain]
  constructor
  · rw [List.length_map, List.length_range]
  · intro i hi
    rw [List.get?_eq_getElem?, List.getElem?_map, List.getElem?_range hi]
    rfl

/-- C8 witness: with the initial state's policy (Yield principal 250000,
on-chain 5.0%, bank 0.2%, horizon 6) the series has 6 points and the
month-6 cumulative values are 6250 on-chain and 250 at the bank. -/
theorem yieldSimulation_spec_witness :
    (yieldSimulation initialState).length = 6 ∧
    (yieldSimulation initialState).get? 5 = some (6250, 250) := by
  have h := yieldSimulation_spec initialState 6 (by norm_num) (by norm_num)
    (by norm_num [initialState]) (by norm_num [initialState])
    (by norm_num [initialState, MAX_SAFE_INTEGER]) (by norm_num [initialState])
    (by norm_num [initialState]) (by norm_num [initialState]) (by norm_num [initialState])
  refine ⟨h.1, ?_⟩
  rw [h.2 5 (by norm_num)]
  norm_num [initialState, jsRound]
